import Mathlib

/-
Verification of the ci/ray_ci containerized test-execution orchestrator
(ci/ray_ci/container.py and ci/ray_ci/docker.py) against its design
specification.  Python functions are shallowly embedded as pure functions;
the subprocess layer (docker build / docker run / wait) is embedded as an
oracle environment supplying, for each call, whether the process could be
spawned and which exit code it reports, and the orchestrator is embedded as
a function producing the trace of subprocess events it performs together
with its result (a value, or the Python exception it raises).
-/

deriving instance DecidableEq for Except

namespace RayCI

/-- Python exceptions that the embedded code can raise:
configError models the ConfigError of the partitioner contract,
calledProcessError models subprocess.CalledProcessError raised by
subprocess.check_call and subprocess.check_output on a non-zero exit, and
popenError models an OSError raised by subprocess.Popen when the process
cannot be spawned at all. -/
inductive PyError : Type
  | configError : PyError
  | calledProcessError : PyError
  | popenError : PyError
deriving DecidableEq, Repr

/-- Outcome of one spawned subprocess: its exit code and captured stdout. -/
structure CmdOutcome : Type where
  exitCode : Int
  stdoutBytes : String
deriving DecidableEq, Repr

/-- Semantics of Python subprocess.check_output: return the captured stdout
when the command exits zero, raise CalledProcessError otherwise. -/
def check_output_model (o : CmdOutcome) : Except PyError String :=
  if o.exitCode = 0 then Except.ok o.stdoutBytes else Except.error PyError.calledProcessError

/-- Module constant DOCKER_ECR of container.py and docker.py. -/
def DOCKER_ECR : String := "029272617770.dkr.ecr.us-west-2.amazonaws.com"

/-- Module constant DOCKER_REPO of container.py and docker.py. -/
def DOCKER_REPO : String := "ci_base_images"

/-- Module constant DOCKER_TAG of container.py and docker.py: the fixed
scheme string oss-ci-build_ followed by the BUILDKITE_COMMIT build
identifier (modelled as an explicit argument). -/
def DOCKER_TAG (commit : String) : String := "oss-ci-build_" ++ commit

/-- Module constant ROOT_DIR of container.py. -/
def ROOT_DIR : String := "/ray/ci/ray_ci"

/-- _get_docker_image of container.py and docker.py (identical in both):
the image reference for a particular commit. -/
def get_docker_image (commit : String) : String :=
  DOCKER_ECR ++ "/" ++ DOCKER_REPO ++ ":" ++ DOCKER_TAG commit

/-- _get_docker_run_command of container.py and docker.py (identical in
both): the fixed docker-run argument vector. -/
def get_docker_run_command (commit : String) : List String :=
  ["docker", "run", "-i", "--rm", "--workdir", "/ray", "--shm-size=2.5gb",
    get_docker_image commit]

/-- Modelled from the spec: chunk_into_n lives in ci/ray_ci/utils.py, which
is not among the provided sources; this is the balanced contiguous chunking
the specification describes for the Partitioner.  With k remaining chunks
and a non-empty remainder l, the next chunk takes the ceiling of
l.length / k elements, so that writing the original length as q*n + r the
first r chunks receive q+1 elements and the rest receive q, and chunking
stops once the remainder is empty (no empty chunk is ever emitted). -/
def chunkBalanced {α : Type} : Nat → List α → List (List α)
  | 0, _ => []
  | _ + 1, [] => []
  | n + 1, x :: xs =>
    ((x :: xs).take (((x :: xs).length + n) / (n + 1))) ::
      chunkBalanced n ((x :: xs).drop (((x :: xs).length + n) / (n + 1)))

/-- Modelled from the spec: chunk_into_n (ci/ray_ci/utils.py, not among the
provided sources).  The Partitioner contract: a non-positive chunk count is
a configuration error that fails fast; otherwise the targets are split into
balanced contiguous chunks. -/
def chunk_into_n {α : Type} (targets : List α) (n : Int) : Except PyError (List (List α)) :=
  if n ≤ 0 then Except.error PyError.configError
  else Except.ok (chunkBalanced n.toNat targets)

/-- The result reduction of run_tests in container.py, line 28:
all tests pass exactly when every collected exit code is zero. -/
def container_run_tests_result (exits : List Int) : Bool :=
  exits.all (fun e => e == 0)

/-- The result reduction of run_tests in docker.py, line 24:
status code 0 when every collected exit code is zero, 1 otherwise. -/
def docker_run_tests_result (exits : List Int) : Int :=
  if exits.all (fun e => e == 0) then 0 else 1

/-- One subprocess event performed by an orchestrator run: the docker
build of _setup_test_environment, the spawning (subprocess.Popen) of the
container for partition i, or the wait on the handle of partition i
returning the given exit code. -/
inductive Event : Type
  | buildCall : Event
  | launch : Nat → Event
  | wait : Nat → Int → Event
deriving DecidableEq, Repr

/-- Oracle for the subprocess layer: the exit code of the docker build in
_setup_test_environment, whether subprocess.Popen succeeds for partition i,
and the exit code that waiting on the handle of partition i returns. -/
structure SubprocessEnv : Type where
  buildExit : Int
  launchOk : Nat → Bool
  waitCode : Nat → Int

/-- The fan-out loop: spawn one container per partition index, in order,
collecting the handles (identified by partition index).  A failing spawn
raises immediately, abandoning both the indices not yet launched and the
handles already collected, exactly like the Python list comprehension
runs = [_run_tests_in_docker(chunk) for chunk in chunks]. -/
def launchAll (ok : Nat → Bool) : List Nat → List Event × Except PyError (List Nat)
  | [] => ([], Except.ok [])
  | i :: rest =>
    if ok i then
      (Event.launch i :: (launchAll ok rest).1,
        (launchAll ok rest).2.map (fun hs => i :: hs))
    else ([], Except.error PyError.popenError)

/-- run_tests of container.py (lines 16-28) as a trace semantics: partition
the targets with chunk_into_n, run _setup_test_environment (whose
subprocess.check_call raises CalledProcessError on a non-zero build exit),
spawn one container per chunk, wait on every handle in launch order, and
reduce the collected exit codes.  Any raised exception propagates and is
returned as an error. -/
def container_run_testsT (env : SubprocessEnv) (test_targets : List String)
    (parallelism : Int) : List Event × Except PyError Bool :=
  match chunk_into_n test_targets parallelism with
  | Except.error e => ([], Except.error e)
  | Except.ok chunks =>
    if env.buildExit = 0 then
      match launchAll env.launchOk (List.range chunks.length) with
      | (tr, Except.error e) => (Event.buildCall :: tr, Except.error e)
      | (tr, Except.ok hs) =>
        (Event.buildCall :: (tr ++ hs.map (fun i => Event.wait i (env.waitCode i))),
          Except.ok (container_run_tests_result (hs.map env.waitCode)))
    else ([Event.buildCall], Except.error PyError.calledProcessError)

/-- run_tests of docker.py (lines 13-24) as a trace semantics: identical
fan-out / fan-in structure but with no environment-preparation stage and an
integer status result.  A launch event stands for one whole
_run_tests_in_docker call (its bazel-options lookup plus subprocess.Popen);
the oracle says whether that call returns a handle or raises. -/
def docker_run_testsT (env : SubprocessEnv) (test_targets : List String)
    (_pre_run_commands : List String) (parallelism : Int) :
    List Event × Except PyError Int :=
  match chunk_into_n test_targets parallelism with
  | Except.error e => ([], Except.error e)
  | Except.ok chunks =>
    match launchAll env.launchOk (List.range chunks.length) with
    | (tr, Except.error e) => (tr, Except.error e)
    | (tr, Except.ok hs) =>
      (tr ++ hs.map (fun i => Event.wait i (env.waitCode i)),
        Except.ok (docker_run_tests_result (hs.map env.waitCode)))

/-- The bazel invocation assembled by _run_tests_in_docker of docker.py,
line 31: the fixed test-tool lead-in, then every target of the partition,
then the queried bazel options. -/
def docker_bazel_command (test_targets bazel_options : List String) : List String :=
  ["bazel", "test", "--config=ci"] ++ test_targets ++ bazel_options

/-- The single shell command string assembled by _run_tests_in_docker of
docker.py, line 32: the pre-run commands followed by the space-joined bazel
invocation, joined by newlines. -/
def docker_test_command (test_targets pre_test_commands bazel_options : List String) :
    String :=
  String.intercalate "\n"
    (pre_test_commands ++
      [String.intercalate " " (docker_bazel_command test_targets bazel_options)])

/-- The full argument vector that _run_tests_in_docker of docker.py,
line 33, hands to subprocess.Popen: the docker-run arguments followed by a
non-login interactive bash executing the generated command. -/
def docker_run_tests_in_docker_argv (test_targets pre_test_commands bazel_options : List String)
    (commit : String) : List String :=
  get_docker_run_command commit ++
    ["/bin/bash", "-ic", docker_test_command test_targets pre_test_commands bazel_options]

/-- The shell command string assembled by _run_tests_in_docker of
container.py, line 55. -/
def container_test_command (test_targets : List String) : String :=
  "bazel test --config=ci " ++ String.intercalate " " test_targets

/-- _docker_run_bash_script of container.py, lines 66-67. -/
def container_docker_run_bash_script (script : String) (commit : String) : List String :=
  get_docker_run_command commit ++ ["/bin/bash", "-ice", script]

/-- run_command of container.py, lines 59-63: subprocess.check_output on
the docker-run bash invocation of the given script. -/
def container_run_command (run : List String → CmdOutcome) (commit script : String) :
    Except PyError String :=
  check_output_model (run (container_docker_run_bash_script script commit))

/-- The argument vector run_command of docker.py passes to
subprocess.check_output (lines 40-42). -/
def docker_run_command_argv (command : List String) (commit : String) : List String :=
  get_docker_run_command commit ++ ["/bin/bash", "-ic", String.intercalate " " command]

/-- run_command of docker.py, lines 36-42. -/
def docker_run_command (run : List String → CmdOutcome) (commit : String)
    (command : List String) : Except PyError String :=
  check_output_model (run (docker_run_command_argv command commit))

/-- The argument vector _setup_test_environment of container.py,
lines 31-51, hands to subprocess.check_call: a docker build that tags
the image reference computed by _get_docker_image. -/
def setup_build_argv (team commit : String) : List String :=
  ["docker", "build",
    "--build-arg", "BASE_IMAGE=" ++ get_docker_image commit,
    "--build-arg", "TEST_ENVIRONMENT_SCRIPT=" ++ team ++ ".tests.env.sh",
    "-t", get_docker_image commit,
    "-f", ROOT_DIR ++ "/tests.env.Dockerfile",
    ROOT_DIR]

/-- Concrete subprocess oracle: build succeeds, every spawn succeeds,
every container exits 0. -/
def envAllOk : SubprocessEnv :=
  { buildExit := 0, launchOk := fun _ => true, waitCode := fun _ => 0 }

/-- Concrete subprocess oracle: build succeeds, the spawn for partition 0
succeeds, every later spawn raises, every container exits 0. -/
def envSecondLaunchFails : SubprocessEnv :=
  { buildExit := 0, launchOk := fun i => i == 0, waitCode := fun _ => 0 }

/-- Concrete subprocess oracle: the docker build exits 1. -/
def envBuildFails : SubprocessEnv :=
  { buildExit := 1, launchOk := fun _ => true, waitCode := fun _ => 0 }

/-- Stub executor whose command always exits 0 with stdout "out". -/
def runStubOk : List String → CmdOutcome :=
  fun _ => { exitCode := 0, stdoutBytes := "out" }

/-- Stub executor whose command always exits 2. -/
def runStubFail : List String → CmdOutcome :=
  fun _ => { exitCode := 2, stdoutBytes := "ignored" }

/-- Unfolding equation of chunkBalanced on a non-empty list. -/
theorem chunkBalanced_cons {α : Type} (n : Nat) (x : α) (xs : List α) :
    chunkBalanced (n + 1) (x :: xs) =
      ((x :: xs).take (((x :: xs).length + n) / (n + 1))) ::
        chunkBalanced n ((x :: xs).drop (((x :: xs).length + n) / (n + 1))) := rfl

/-- The chunks concatenate, in order, back to the original list. -/
theorem chunkBalanced_flatten {α : Type} : ∀ (n : Nat) (l : List α),
    (chunkBalanced (n + 1) l).flatten = l := by
  intro n
  induction n with
  | zero =>
    intro l
    cases l with
    | nil => rfl
    | cons x xs => simp [chunkBalanced]
  | succ n ih =>
    intro l
    cases l with
    | nil => rfl
    | cons x xs =>
      rw [chunkBalanced_cons]
      simp only [List.flatten_cons, ih]
      exact List.take_append_drop _ _

/-- No chunk is ever empty. -/
theorem chunkBalanced_ne_nil {α : Type} : ∀ (n : Nat) (l : List α),
    ∀ c ∈ chunkBalanced n l, c ≠ [] := by
  intro n
  induction n with
  | zero => intro l c hc; simp [chunkBalanced] at hc
  | succ n ih =>
    intro l c hc
    cases l with
    | nil => simp [chunkBalanced] at hc
    | cons x xs =>
      rw [chunkBalanced_cons] at hc
      rcases List.mem_cons.mp hc with hc | hc
      · subst hc
        have hs : 1 ≤ ((x :: xs).length + n) / (n + 1) := by
          rw [Nat.one_le_div_iff (by omega)]
          simp only [List.length_cons]
          omega
        obtain ⟨s, hsdef⟩ := Nat.exists_eq_add_of_le hs
        rw [hsdef, Nat.add_comm 1 s]
        simp [List.take_succ_cons]
      · exact ih _ c hc

/-- The chunk sizes realize the balanced-size contract: with L targets and
n+1 requested chunks, writing L = (n+1)*q + r, the first r chunks have
q+1 elements and the remaining min (n+1) L - r chunks have q elements. -/
theorem chunkBalanced_map_length {α : Type} : ∀ (n : Nat) (l : List α),
    (chunkBalanced (n + 1) l).map List.length =
      List.replicate (l.length % (n + 1)) (l.length / (n + 1) + 1) ++
        List.replicate (min (n + 1) l.length - l.length % (n + 1)) (l.length / (n + 1)) := by
  intro n
  induction n with
  | zero =>
    intro l
    cases l with
    | nil => simp [chunkBalanced]
    | cons x xs =>
      simp [chunkBalanced, Nat.mod_one, Nat.div_one, List.length_cons,
        Nat.min_eq_left (show 1 ≤ xs.length + 1 by omega)]
  | succ n ih =>
    intro l
    cases l with
    | nil => simp [chunkBalanced]
    | cons x xs =>
      rw [chunkBalanced_cons, List.map_cons, ih, List.length_take, List.length_drop]
      simp only [show n + 1 + 1 = n + 2 from rfl]
      obtain ⟨L, hLe, hL1⟩ : ∃ L, (x :: xs).length = L ∧ 1 ≤ L :=
        ⟨(x :: xs).length, rfl, by simp⟩
      rw [hLe]
      obtain ⟨q, hq⟩ : ∃ q, L / (n + 2) = q := ⟨_, rfl⟩
      obtain ⟨r, hr⟩ : ∃ r, L % (n + 2) = r := ⟨_, rfl⟩
      have hqr : (n + 2) * q + r = L := by rw [← hq, ← hr]; exact Nat.div_add_mod L (n + 2)
      have hrlt : r < n + 2 := by rw [← hr]; exact Nat.mod_lt _ (by omega)
      rw [hq, hr]
      have hmul1 : (n + 2) * q = q * (n + 2) := Nat.mul_comm _ _
      have hmul3 : q * (n + 2) = q * (n + 1) + q := by ring
      rcases Nat.eq_zero_or_pos r with h0 | h0
      · -- r = 0 : the head chunk takes exactly q elements
        subst h0
        have hq1 : 1 ≤ q := by
          rcases Nat.eq_zero_or_pos q with h | h
          · subst h; omega
          · exact h
        have hs : (L + (n + 1)) / (n + 2) = q := by
          rw [show L + (n + 1) = (n + 1) + q * (n + 2) by omega,
            Nat.add_mul_div_right _ _ (show 0 < n + 2 by omega),
            Nat.div_eq_of_lt (show n + 1 < n + 2 by omega), Nat.zero_add]
        rw [hs]
        have hdrop : L - q = q * (n + 1) := by omega
        rw [hdrop, Nat.mul_mod_left, Nat.mul_div_cancel _ (show 0 < n + 1 by omega)]
        have hge1 : (n + 2) * 1 ≤ (n + 2) * q := Nat.mul_le_mul (Nat.le_refl _) hq1
        have hge2 : 1 * (n + 1) ≤ q * (n + 1) := Nat.mul_le_mul hq1 (Nat.le_refl _)
        rw [show min (n + 2) L = n + 2 by omega,
          show min (n + 1) (q * (n + 1)) = n + 1 by omega,
          show min q L = q by omega]
        simp [List.replicate_succ]
      · -- r >= 1 : the head chunk takes q+1 elements
        obtain ⟨r2, rfl⟩ : ∃ r2, r = r2 + 1 := ⟨r - 1, by omega⟩
        have hs : (L + (n + 1)) / (n + 2) = q + 1 := by
          rw [show L + (n + 1) = r2 + (q + 1) * (n + 2) by
              have hmul4 : (q + 1) * (n + 2) = q * (n + 2) + (n + 2) := by ring
              omega,
            Nat.add_mul_div_right _ _ (show 0 < n + 2 by omega),
            Nat.div_eq_of_lt (show r2 < n + 2 by omega), Nat.zero_add]
        rw [hs]
        have hdrop : L - (q + 1) = r2 + q * (n + 1) := by omega
        rw [hdrop, Nat.add_mul_mod_self_right, Nat.mod_eq_of_lt (show r2 < n + 1 by omega),
          Nat.add_mul_div_right _ _ (show 0 < n + 1 by omega),
          Nat.div_eq_of_lt (show r2 < n + 1 by omega), Nat.zero_add]
        rcases Nat.eq_zero_or_pos q with hq0 | hq0
        · subst hq0
          simp only [Nat.zero_mul, Nat.add_zero, Nat.zero_add]
          rw [show min (n + 1) r2 = r2 by omega,
            show min (n + 2) L = r2 + 1 by omega,
            show min 1 L = 1 by omega]
          simp [List.replicate_succ]
        · have hge1 : (n + 2) * 1 ≤ (n + 2) * q := Nat.mul_le_mul (Nat.le_refl _) hq0
          have hge2 : 1 * (n + 1) ≤ q * (n + 1) := Nat.mul_le_mul hq0 (Nat.le_refl _)
          rw [show min (n + 1) (r2 + q * (n + 1)) = n + 1 by omega,
            show min (n + 2) L = n + 2 by omega,
            show min (q + 1) L = q + 1 by omega,
            show n + 2 - (r2 + 1) = n + 1 - r2 by omega]
          simp [List.replicate_succ]

/-- The number of chunks is exactly min (n+1) L. -/
theorem chunkBalanced_length {α : Type} (n : Nat) (l : List α) :
    (chunkBalanced (n + 1) l).length = min (n + 1) l.length := by
  have h := congrArg List.length (chunkBalanced_map_length n l)
  simp only [List.length_map, List.length_append, List.length_replicate] at h
  have hmod : l.length % (n + 1) ≤ min (n + 1) l.length := by
    rcases Nat.lt_or_ge l.length (n + 1) with hlt | hle
    · rw [Nat.mod_eq_of_lt hlt]; omega
    · have := Nat.mod_lt l.length (show 0 < n + 1 by omega)
      omega
  omega

/-- When every spawn succeeds, fan-out emits one launch event per partition
index, in order, and returns the handles of all partitions. -/
theorem launchAll_all_ok (ok : Nat → Bool) : ∀ idxs : List Nat,
    (∀ i ∈ idxs, ok i = true) →
      launchAll ok idxs = (idxs.map Event.launch, Except.ok idxs) := by
  intro idxs
  induction idxs with
  | nil => intro _; rfl
  | cons i rest ih =>
    intro h
    have hi : ok i = true := h i (List.mem_cons_self i rest)
    have hrest := ih (fun j hj => h j (List.mem_cons_of_mem i hj))
    simp [launchAll, hi, hrest, Except.map]

/-- When the spawn for index j raises after every earlier spawn succeeded,
fan-out stops at j: only the earlier launch events happen, and the
exception propagates, abandoning the handles already collected. -/
theorem launchAll_fails (ok : Nat → Bool) (j : Nat) (hj : ok j = false) :
    ∀ (pre rest : List Nat), (∀ i ∈ pre, ok i = true) →
      launchAll ok (pre ++ j :: rest) =
        (pre.map Event.launch, Except.error PyError.popenError) := by
  intro pre
  induction pre with
  | nil => intro rest _; simp [launchAll, hj]
  | cons i p ih =>
    intro rest h
    have hi : ok i = true := h i (List.mem_cons_self i p)
    have hp := ih rest (fun k hk => h k (List.mem_cons_of_mem i hk))
    simp [launchAll, hi, hp, Except.map]

/-- List.range k splits at any j < k. -/
theorem range_split (j k : Nat) (h : j < k) :
    ∃ rest, List.range k = List.range j ++ j :: rest := by
  induction k with
  | zero => omega
  | succ k ih =>
    rcases Nat.lt_or_ge j k with h2 | h2
    · obtain ⟨rest, hrest⟩ := ih h2
      refine ⟨rest ++ [k], ?_⟩
      rw [List.range_succ, hrest]
      simp
    · have : j = k := by omega
      subst this
      exact ⟨[], List.range_succ j⟩

/-- Success of the partitioner for positive parallelism. -/
theorem chunk_into_n_pos {α : Type} (targets : List α) (n : Int) (hn : 0 < n) :
    chunk_into_n targets n = Except.ok (chunkBalanced n.toNat targets) := by
  unfold chunk_into_n
  rw [if_neg (by omega)]

/-- C1: the overall result is success if and only if every collected exit
code equals 0: container.run_tests reduces its exit codes to true exactly
when all are zero and docker.run_tests reduces them to 0 exactly when all
are zero, one non-zero exit code forces false respectively 1 regardless of
the other codes, and the empty sequence of results reduces to true
respectively 0. -/
theorem C1_result_reduction (exits : List Int) :
    (container_run_tests_result exits = true ↔ ∀ e ∈ exits, e = 0) ∧
    (docker_run_tests_result exits = 0 ↔ ∀ e ∈ exits, e = 0) ∧
    (∀ e ∈ exits, e ≠ 0 →
      container_run_tests_result exits = false ∧ docker_run_tests_result exits = 1) ∧
    container_run_tests_result [] = true ∧ docker_run_tests_result [] = 0 := by
  have hb : exits.all (fun e => e == 0) = true ↔ ∀ e ∈ exits, e = 0 := by
    simp [List.all_eq_true]
  refine ⟨hb, ?_, ?_, rfl, rfl⟩
  · rw [← hb]
    unfold docker_run_tests_result
    rcases Bool.eq_false_or_eq_true (exits.all (fun e => e == 0)) with h | h <;> simp [h]
  · intro e he hne
    have hnall : ¬ (∀ x ∈ exits, x = 0) := fun hx => hne (hx e he)
    rw [← hb] at hnall
    have hfalse : exits.all (fun e => e == 0) = false := by
      rcases Bool.eq_false_or_eq_true (exits.all (fun e => e == 0)) with h | h
      · exact absurd h hnall
      · exact h
    constructor
    · unfold container_run_tests_result
      exact hfalse
    · unfold docker_run_tests_result
      simp [hfalse]

/-- Closed instance of C1 at the exit-code list [0, 2] and at the empty
list: one non-zero exit code yields failure in both variants, and the
empty list reduces to success in both variants. -/
theorem C1_result_reduction_witness :
    container_run_tests_result [0, 2] = false ∧ docker_run_tests_result [0, 2] = 1 ∧
    container_run_tests_result [] = true ∧ docker_run_tests_result [] = 0 := by
  have h := C1_result_reduction [0, 2]
  have h2 := h.2.2.1 2 (by simp) (by decide)
  exact ⟨h2.1, h2.2, h.2.2.2.1, h.2.2.2.2⟩

/-- C2: for positive parallelism the Partitioner used by run_tests
succeeds and returns exactly min n (length T) partitions, none of them
empty, whose concatenation in partition order is T, and whose sizes follow
the balanced pattern: with length T = q*n + r, the first r partitions have
q+1 items and the remaining ones have q items; for an empty T the length
conjunct forces zero partitions.  chunk_into_n itself is modelled from the
spec because ci/ray_ci/utils.py is not among the sources. -/
theorem C2_partitioner (T : List String) (n : Int) (hn : 0 < n) :
    chunk_into_n T n = Except.ok (chunkBalanced n.toNat T) ∧
    (chunkBalanced n.toNat T).length = min n.toNat T.length ∧
    (chunkBalanced n.toNat T).flatten = T ∧
    (∀ c ∈ chunkBalanced n.toNat T, c ≠ []) ∧
    (chunkBalanced n.toNat T).map List.length =
      List.replicate (T.length % n.toNat) (T.length / n.toNat + 1) ++
        List.replicate (min n.toNat T.length - T.length % n.toNat) (T.length / n.toNat) := by
  obtain ⟨m, hm⟩ : ∃ m, n.toNat = m + 1 := ⟨n.toNat - 1, by omega⟩
  have h1 := chunk_into_n_pos T n hn
  rw [hm] at h1 ⊢
  exact ⟨h1, chunkBalanced_length m T, chunkBalanced_flatten m T,
    chunkBalanced_ne_nil (m + 1) T, chunkBalanced_map_length m T⟩

/-- Closed instance of C2: ten targets split three ways give the balanced
partition of sizes 4, 3, 3 covering the input in order. -/
theorem C2_partitioner_witness :
    chunk_into_n ["t1", "t2", "t3", "t4", "t5", "t6", "t7", "t8", "t9", "t10"] 3 =
      Except.ok [["t1", "t2", "t3", "t4"], ["t5", "t6", "t7"], ["t8", "t9", "t10"]] := by
  have h := (C2_partitioner
    ["t1", "t2", "t3", "t4", "t5", "t6", "t7", "t8", "t9", "t10"] 3 (by omega)).1
  rw [h]
  rfl

/-- C9: the two orchestrator variants compute the same verdict from the
same per-partition exit codes: the boolean reduction of container.run_tests
is true exactly when the status reduction of docker.run_tests is 0, and
false exactly when it is 1. -/
theorem C9_variant_equivalence (exits : List Int) :
    (container_run_tests_result exits = true ↔ docker_run_tests_result exits = 0) ∧
    (container_run_tests_result exits = false ↔ docker_run_tests_result exits = 1) := by
  unfold container_run_tests_result docker_run_tests_result
  rcases Bool.eq_false_or_eq_true (exits.all (fun e => e == 0)) with h | h <;> simp [h]

/-- Closed instance of C9 at the exit-code list [1, 0]. -/
theorem C9_variant_equivalence_witness :
    (container_run_tests_result [1, 0] = true ↔ docker_run_tests_result [1, 0] = 0) ∧
    (container_run_tests_result [1, 0] = false ↔ docker_run_tests_result [1, 0] = 1) :=
  C9_variant_equivalence [1, 0]

/-- C3 is false on the code: with two partitions, a successful build, a
successful spawn for partition 0 and a spawn for partition 1 that raises,
run_tests does not return an overall failure result (it propagates the
exception instead), the RunHandle already obtained for partition 0 is
never waited upon, and partition 1 never runs. -/
theorem C3_counterexample :
    (container_run_testsT envSecondLaunchFails ["a", "b"] 2).2 =
      Except.error PyError.popenError ∧
    (container_run_testsT envSecondLaunchFails ["a", "b"] 2).2 ≠ Except.ok false ∧
    Event.wait 0 (envSecondLaunchFails.waitCode 0) ∉
      (container_run_testsT envSecondLaunchFails ["a", "b"] 2).1 ∧
    Event.launch 1 ∉ (container_run_testsT envSecondLaunchFails ["a", "b"] 2).1 := by
  decide

/-- C3 (amended): if launching the container for one partition fails (the
launch raises before a RunHandle is returned), run_tests propagates the
exception: the partitions before it are launched but none of their
RunHandles is waited upon, the partitions after it are never launched, and
no OverallResult is produced — failure surfaces as the exception, not
through the result reduction. -/
theorem C3_launch_exception (env : SubprocessEnv) (test_targets : List String)
    (parallelism : Int) (chunks : List (List String)) (j : Nat)
    (hchunk : chunk_into_n test_targets parallelism = Except.ok chunks)
    (hbuild : env.buildExit = 0)
    (hj : j < chunks.length)
    (hfail : env.launchOk j = false)
    (hbefore : ∀ i, i < j → env.launchOk i = true) :
    container_run_testsT env test_targets parallelism =
      (Event.buildCall :: (List.range j).map Event.launch,
        Except.error PyError.popenError) := by
  obtain ⟨rest, hsplit⟩ := range_split j chunks.length hj
  have hla := launchAll_fails env.launchOk j hfail (List.range j) rest
    (fun i hi => hbefore i (List.mem_range.mp hi))
  simp only [container_run_testsT, hchunk, hbuild, reduceIte, hsplit, hla]

/-- Closed instance of the amended C3: two partitions, the spawn for
partition 1 raises; only the build and the launch of partition 0 happen
and the exception propagates. -/
theorem C3_launch_exception_witness :
    container_run_testsT envSecondLaunchFails ["a", "b"] 2 =
      ([Event.buildCall, Event.launch 0], Except.error PyError.popenError) := by
  have h := C3_launch_exception envSecondLaunchFails ["a", "b"] 2 [["a"], ["b"]] 1
    (by decide) rfl (by decide) (by decide)
    (by
      intro i hi
      have h0 : i = 0 := by omega
      subst h0
      rfl)
  exact h

/-- C4: when every spawn returns a RunHandle (and the build succeeds, so
the supervisor is reached), run_tests of both variants performs fan-out
then fan-in: the trace is exactly one launch event per partition followed
by exactly one wait event per obtained handle, in launch order — all
handles are collected before any is waited upon, none is dropped, none is
waited twice — and the result is the reduction of exactly the collected
exit codes. -/
theorem C4_fanout_then_fanin (env : SubprocessEnv)
    (test_targets pre_run_commands : List String) (parallelism : Int)
    (chunks : List (List String))
    (hchunk : chunk_into_n test_targets parallelism = Except.ok chunks)
    (hbuild : env.buildExit = 0)
    (hok : ∀ i, env.launchOk i = true) :
    container_run_testsT env test_targets parallelism =
      (Event.buildCall ::
        ((List.range chunks.length).map Event.launch ++
          (List.range chunks.length).map (fun i => Event.wait i (env.waitCode i))),
        Except.ok (container_run_tests_result
          ((List.range chunks.length).map env.waitCode))) ∧
    docker_run_testsT env test_targets pre_run_commands parallelism =
      ((List.range chunks.length).map Event.launch ++
        (List.range chunks.length).map (fun i => Event.wait i (env.waitCode i)),
        Except.ok (docker_run_tests_result
          ((List.range chunks.length).map env.waitCode))) := by
  have hla := launchAll_all_ok env.launchOk (List.range chunks.length) (fun i _ => hok i)
  constructor
  · simp only [container_run_testsT, hchunk, hbuild, reduceIte, hla]
  · simp only [docker_run_testsT, hchunk, hla]

/-- Closed instance of C4: three targets in two partitions, all spawns
succeed and exit 0; the trace launches both partitions before waiting on
either, waits on each exactly once, and the reduction succeeds. -/
theorem C4_fanout_then_fanin_witness :
    container_run_testsT envAllOk ["a", "b", "c"] 2 =
      ([Event.buildCall, Event.launch 0, Event.launch 1, Event.wait 0 0, Event.wait 1 0],
        Except.ok true) ∧
    docker_run_testsT envAllOk ["a", "b", "c"] [] 2 =
      ([Event.launch 0, Event.launch 1, Event.wait 0 0, Event.wait 1 0],
        Except.ok 0) := by
  have h := C4_fanout_then_fanin envAllOk ["a", "b", "c"] [] 2 [["a", "b"], ["c"]]
    (by decide) rfl (fun i => rfl)
  exact h

/-- C5: if the Environment Preparer docker build exits non-zero, the whole
run aborts before any Group Runner is invoked: the trace contains only the
build event — no container is launched for any partition — and the
outcome is the immediately surfaced CalledProcessError, not a value folded
from per-partition results. -/
theorem C5_build_failure_aborts (env : SubprocessEnv) (test_targets : List String)
    (parallelism : Int) (hn : 0 < parallelism) (hbuild : env.buildExit ≠ 0) :
    container_run_testsT env test_targets parallelism =
      ([Event.buildCall], Except.error PyError.calledProcessError) := by
  have hchunk := chunk_into_n_pos test_targets parallelism hn
  simp only [container_run_testsT, hchunk]
  rw [if_neg hbuild]

/-- Closed instance of C5: the build exits 1 and run_tests performs only
the build call and aborts. -/
theorem C5_build_failure_aborts_witness :
    container_run_testsT envBuildFails ["a", "b"] 2 =
      ([Event.buildCall], Except.error PyError.calledProcessError) :=
  C5_build_failure_aborts envBuildFails ["a", "b"] 2 (by decide) (by decide)

/-- C6: for every target list and every non-positive parallelism,
run_tests fails fast with the partitioner ConfigError before anything
runs: the trace is empty, so no Environment Preparer build and no Group
Runner invocation occurs.  The ConfigError itself comes from the
spec-modelled chunk_into_n; the ordering (partitioning before build before
launches) is that of container.py. -/
theorem C6_nonpositive_parallelism (env : SubprocessEnv) (test_targets : List String)
    (parallelism : Int) (hn : parallelism ≤ 0) :
    container_run_testsT env test_targets parallelism =
      ([], Except.error PyError.configError) := by
  have hchunk : chunk_into_n test_targets parallelism =
      Except.error PyError.configError := by
    unfold chunk_into_n
    rw [if_pos hn]
  simp only [container_run_testsT, hchunk]

/-- Closed instance of C6 at parallelism 0. -/
theorem C6_nonpositive_parallelism_witness :
    container_run_testsT envAllOk ["a"] 0 = ([], Except.error PyError.configError) :=
  C6_nonpositive_parallelism envAllOk ["a"] 0 (by decide)

/-- C7: the Group Runner builds one shell command string — the ordered
pre-run commands followed by a single test-tool invocation listing every
target of the partition, joined by whitespace (newlines between commands,
spaces within the bazel invocation) — and executes it as one command via a
non-login interactive shell (bash with -i and -c and no login flag) inside
a container run interactively (-i), auto-removed on exit (--rm), with the
fixed working directory /ray and the fixed shared-memory override
--shm-size=2.5gb.  The second conjunct records that the bazel invocation
contains every target of the partition, in order. -/
theorem C7_group_runner_command (test_targets pre_test_commands bazel_options : List String)
    (commit : String) :
    docker_run_tests_in_docker_argv test_targets pre_test_commands bazel_options commit =
      ["docker", "run", "-i", "--rm", "--workdir", "/ray", "--shm-size=2.5gb",
        get_docker_image commit, "/bin/bash", "-ic",
        String.intercalate "\n" (pre_test_commands ++
          [String.intercalate " "
            (["bazel", "test", "--config=ci"] ++ test_targets ++ bazel_options)])] ∧
    List.Sublist test_targets (docker_bazel_command test_targets bazel_options) := by
  refine ⟨rfl, ?_⟩
  unfold docker_bazel_command
  rw [List.append_assoc]
  exact (List.sublist_append_left test_targets bazel_options).trans
    (List.sublist_append_right _ _)

/-- C8: within one run the image the Environment Preparer builds and tags
(the argument after -t in the docker build invocation) is exactly the image
every Group Runner container is started with (the final argument of the
docker run invocation), and that shared reference is the registry host,
the repository, and a tag made of the fixed scheme string oss-ci-build_
followed by the commit identifier. -/
theorem C8_image_identity (team commit : String) :
    (setup_build_argv team commit)[7]? = some (get_docker_image commit) ∧
    (get_docker_run_command commit)[7]? = some (get_docker_image commit) ∧
    get_docker_image commit =
      DOCKER_ECR ++ "/" ++ DOCKER_REPO ++ ":" ++ ("oss-ci-build_" ++ commit) :=
  ⟨rfl, rfl, rfl⟩

/-- C10: run_command (both variants) returns the captured stdout bytes of
the in-container command exactly when that command exits 0; on any
non-zero exit it raises CalledProcessError instead of returning, so a
caller that receives bytes knows the in-container command succeeded. -/
theorem C10_run_command (run : List String → CmdOutcome) (commit script : String)
    (command : List String) :
    ((container_run_command run commit script =
        Except.ok (run (container_docker_run_bash_script script commit)).stdoutBytes) ↔
      (run (container_docker_run_bash_script script commit)).exitCode = 0) ∧
    ((run (container_docker_run_bash_script script commit)).exitCode ≠ 0 →
      container_run_command run commit script = Except.error PyError.calledProcessError) ∧
    (∀ out, container_run_command run commit script = Except.ok out →
      (run (container_docker_run_bash_script script commit)).exitCode = 0 ∧
      out = (run (container_docker_run_bash_script script commit)).stdoutBytes) ∧
    ((docker_run_command run commit command =
        Except.ok (run (docker_run_command_argv command commit)).stdoutBytes) ↔
      (run (docker_run_command_argv command commit)).exitCode = 0) ∧
    (∀ out, docker_run_command run commit command = Except.ok out →
      (run (docker_run_command_argv command commit)).exitCode = 0 ∧
      out = (run (docker_run_command_argv command commit)).stdoutBytes) := by
  unfold container_run_command docker_run_command check_output_model
  rcases eq_or_ne (run (container_docker_run_bash_script script commit)).exitCode 0
    with h1 | h1 <;>
  rcases eq_or_ne (run (docker_run_command_argv command commit)).exitCode 0
    with h2 | h2 <;>
  simp [h1, h2]

/-- Closed instance of C10: a zero-exit command returns its stdout in both
variants, and a command exiting 2 raises instead of returning. -/
theorem C10_run_command_witness :
    container_run_command runStubOk "c" "echo hi" = Except.ok "out" ∧
    docker_run_command runStubOk "c" ["echo", "hi"] = Except.ok "out" ∧
    container_run_command runStubFail "c" "echo hi" =
      Except.error PyError.calledProcessError := by
  have h := C10_run_command runStubOk "c" "echo hi" ["echo", "hi"]
  have h2 := C10_run_command runStubFail "c" "echo hi" ["echo", "hi"]
  exact ⟨h.1.mpr rfl, h.2.2.2.1.mpr rfl, h2.2.1 (by decide)⟩

end RayCI
